import Mathlib

/-!
Verification of the MediTrace anomaly-scoring core.

This file shallowly embeds the scoring core of the MediTrace backend
(`backend/anomaly_detection.py`, `backend/ml_models/feature_extractor.py`,
`backend/ml_models/counterfeit_classifier.py`,
`backend/ml_models/train_random_forest.py`, and the relevant parts of
`backend/main.py` / `backend/database_OLD_BACKUP.py`) and proves or refutes
the frozen specification claims about it.

Modelling conventions:
* Timestamps are absolute integer seconds (the Python code parses
  `%Y-%m-%d %H:%M:%S` strings to `datetime` and only ever uses differences,
  hours-of-day and weekdays, all of which are integer arithmetic on seconds).
* Coordinates are rationals; a missing coordinate is `none` (`None` in
  Python).  Python truthiness (`0.0` and `None` both falsy) is modelled by
  `truthyCoord`.
* The haversine great-circle distance uses transcendental functions
  (`sin`, `cos`, `atan2`, `sqrt`), which have no executable counterpart in
  Lean; every function that calls it is therefore parameterized by a
  distance oracle `dist : Event → Event → ℚ`.  None of the claims depend on
  particular haversine values except `haversine p p = 0`, which concrete
  oracles below respect.
* Python floats are modelled by ℚ; `float('inf')` (produced exactly when
  the elapsed time is zero) is modelled by `none` in an `Option ℚ` speed,
  with `speed_exceeds none c = true` mirroring `inf > c`.
-/

namespace MediTrace

/-- One supply-chain event row (table `supply_chain`): place name, optional
GPS coordinates, event-type tag, and timestamp in seconds. -/
structure Event where
  location : String
  latitude : Option ℚ
  longitude : Option ℚ
  event_type : String
  timestamp : ℤ
deriving DecidableEq

/-- Python truthiness of an optional coordinate: `None` and `0.0` are falsy,
every other float is truthy (used by `_calculate_speed_severity`). -/
def truthyCoord : Option ℚ → Bool
  | none => false
  | some q => q != 0

/-- Adjacent pairs of a list, in order: the Python loops
`for i in range(1, len(events))` / `for i in range(len(events) - 1)` both
visit exactly these pairs. -/
def adjacentPairs (events : List Event) : List (Event × Event) :=
  events.zip events.tail

/-! ### backend/anomaly_detection.py -/

/-- `calculate_travel_speed` (anomaly_detection.py lines 37-64): distance
divided by elapsed hours; when the elapsed time is exactly zero the Python
code returns `float('inf')`, modelled as `none`. -/
def calculate_travel_speed (dist : Event → Event → ℚ) (e1 e2 : Event) : Option ℚ :=
  let time_diff_hours : ℚ := ((e2.timestamp - e1.timestamp : ℤ) : ℚ) / 3600
  if time_diff_hours = 0 then none
  else some (dist e1 e2 / time_diff_hours)

/-- Comparison `speed > c` where `none` stands for `float('inf')`, which
compares greater than every finite threshold. -/
def speed_exceeds (s : Option ℚ) (c : ℚ) : Bool :=
  match s with
  | none => true
  | some q => decide (q > c)

inductive Severity where
  | CRITICAL
  | MEDIUM
deriving DecidableEq

inductive AnomalyType where
  | CLONING_SUSPECTED
  | UNUSUAL_SPEED
deriving DecidableEq

/-- One per-transition anomaly record produced by `detect_cloning_attempt`
(the Python dict also carries rounded display copies of these values and
fixed recommendation strings, which are presentational and omitted here). -/
structure Anomaly where
  type : AnomalyType
  severity : Severity
  from_location : String
  to_location : String
  distance_km : ℚ
  speed : Option ℚ
deriving DecidableEq

/-- The per-pair classification body of the loop in `detect_cloning_attempt`
(anomaly_detection.py lines 83-131): speed above 900 km/h gives a CRITICAL
`CLONING_SUSPECTED` record; otherwise speed above 120 km/h together with
distance above 50 km gives a MEDIUM `UNUSUAL_SPEED` record; otherwise no
record for this pair. -/
def classify_pair (dist : Event → Event → ℚ) (e1 e2 : Event) : Option Anomaly :=
  let distance := dist e1 e2
  let speed := calculate_travel_speed dist e1 e2
  if speed_exceeds speed 900 then
    some ⟨AnomalyType.CLONING_SUSPECTED, Severity.CRITICAL, e1.location, e2.location, distance, speed⟩
  else if speed_exceeds speed 120 && decide (distance > 50) then
    some ⟨AnomalyType.UNUSUAL_SPEED, Severity.MEDIUM, e1.location, e2.location, distance, speed⟩
  else
    none

/-- `detect_cloning_attempt` (anomaly_detection.py lines 67-133): fewer than
two events yields the empty list; otherwise each adjacent pair is classified
independently and the produced records are collected in order. -/
def detect_cloning_attempt (dist : Event → Event → ℚ) (events : List Event) : List Anomaly :=
  if events.length < 2 then []
  else (adjacentPairs events).filterMap (fun p => classify_pair dist p.1 p.2)

/-- The `SUSPICIOUS_SCAN_FREQUENCY` alert payload of `check_scan_frequency`
(count and window; the message and recommendation strings are fixed text). -/
structure FrequencyAlert where
  scan_count : ℕ
  time_window_hours : ℚ
deriving DecidableEq

/-- `check_scan_frequency` (anomaly_detection.py lines 136-176): the scan
count over the trailing window is a SQL `COUNT(*)` against the collaborator
store and is taken here as an input; more than 10 scans fires the alert. -/
def check_scan_frequency (scan_count : ℕ) (time_window_hours : ℚ := 1) : Option FrequencyAlert :=
  if scan_count > 10 then some ⟨scan_count, time_window_hours⟩ else none

/-- The safety report built by `analyze_drug_safety` (the `unique_id` and
`analysis_timestamp` echo fields are omitted). -/
structure SafetyReport where
  total_events : ℕ
  cloning_alerts : List Anomaly
  scan_frequency_alert : Option FrequencyAlert
  overall_status : String
  risk_level : String
deriving DecidableEq

/-- `analyze_drug_safety` (anomaly_detection.py lines 179-236) for a drug
that was found: its checkpoint rows (already `ORDER BY timestamp ASC`) and
its recent scan count are read from the store and taken here as inputs.
`overall_status` is `SAFE` exactly when there are no cloning anomalies and
no frequency alert; `risk_level` is `LOW` in that case, else `CRITICAL`
when any cloning anomaly exists, else `MEDIUM`. -/
def analyze_drug_safety (dist : Event → Event → ℚ) (events : List Event)
    (scan_count : ℕ) : SafetyReport :=
  let cloning := detect_cloning_attempt dist events
  let alert := check_scan_frequency scan_count
  { total_events := events.length
    cloning_alerts := cloning
    scan_frequency_alert := alert
    overall_status := if cloning = [] ∧ alert = none then "SAFE" else "SUSPICIOUS"
    risk_level :=
      if cloning = [] ∧ alert = none then "LOW"
      else if cloning ≠ [] then "CRITICAL"
      else "MEDIUM" }

/-! ### backend/ml_models/feature_extractor.py (class FeatureExtractorV2) -/

/-- Static drug metadata consumed by the extractor (`drug_data` dict).
The Python code reads `drug_name`, `batch_id`, `license_number` and `mrp`. -/
structure DrugData where
  drug_name : String
  batch_id : String
  license_number : String
  mrp : ℚ
deriving DecidableEq

/-- The database collaborator used by the extractor: sibling units of a
batch and the per-unit failed-attempt predicate. -/
structure DB where
  drugsByBatch : String → List String
  hasFailedAttempts : String → Bool

/-- The `self.market_prices` table of `FeatureExtractorV2.__init__`. -/
def market_prices : String → Option ℚ := fun name =>
  if name = "Dolo 650" then some (61/2)
  else if name = "Azithral 500" then some 125
  else if name = "Crocin Advance" then some 28
  else if name = "Amoxyclav 625" then some 180
  else if name = "Pantoprazole 40" then some (191/2)
  else if name = "Cetirizine 10" then some 42
  else if name = "Combiflam" then some 35
  else none

/-- The `self.route_times` table of `FeatureExtractorV2.__init__`
(expected truck travel times in hours, keyed by ordered city pair). -/
def route_times : String → String → Option ℚ := fun l1 l2 =>
  if l1 = "Mumbai" ∧ l2 = "Delhi" then some 24
  else if l1 = "Delhi" ∧ l2 = "Bangalore" then some 36
  else if l1 = "Mumbai" ∧ l2 = "Bangalore" then some 20
  else if l1 = "Chennai" ∧ l2 = "Delhi" then some 40
  else none

/-- Python's `timedelta.days` on a span of `s` seconds: floor division by
86400 (rounds toward minus infinity). -/
def timedelta_days (s : ℤ) : ℤ := Int.fdiv s 86400

/-- `_calculate_scan_frequency` (feature 1): scans per elapsed day over the
whole series, banded; fewer than two events scores 1. -/
def calculate_scan_frequency (events : List Event) : ℚ :=
  if events.length < 2 then 1
  else
    match events with
    | [] => 1
    | e0 :: _ =>
      let ts := events.map (fun e => e.timestamp)
      let tmax := ts.foldl max e0.timestamp
      let tmin := ts.foldl min e0.timestamp
      let days_elapsed : ℤ := max (timedelta_days (tmax - tmin) + 1) 1
      let scans_per_day : ℚ := (events.length : ℚ) / (days_elapsed : ℚ)
      if scans_per_day ≤ 1/2 then 1
      else if scans_per_day ≤ 2 then 7/10
      else if scans_per_day ≤ 5 then 3/10
      else 0

/-- Python's `round(x, 3)` on a rational, used to bucket coordinates to
about 100 m (Mathlib's `round` rounds halves up where Python's float round
is half-even; no claim depends on tie behaviour). -/
def round3 (q : ℚ) : ℚ := ((round (q * 1000) : ℤ) : ℚ) / 1000

/-- `_calculate_unique_locations` (feature 2): distinct rounded coordinate
pairs (events with a `None` coordinate are skipped) divided by the total
event count; an empty series or a series with no GPS data scores 1. -/
def calculate_unique_locations (events : List Event) : ℚ :=
  if events = [] then 1
  else
    let coords := events.filterMap (fun e =>
      match e.latitude, e.longitude with
      | some la, some lo => some (round3 la, round3 lo)
      | _, _ => none)
    let uniq := coords.dedup
    if uniq.length = 0 then 1
    else (uniq.length : ℚ) / (events.length : ℚ)

/-- `_calculate_completeness` (feature 3): fraction of the three required
stages present among the event types, with `Production Complete` accepted
for `Factory Production`. -/
def calculate_completeness (events : List Event) : ℚ :=
  let present := events.map (fun e => e.event_type)
  let m1 : ℚ := if present.contains "Factory Production" ∨ present.contains "Production Complete" then 1 else 0
  let m2 : ℚ := if present.contains "Warehouse Receipt" then 1 else 0
  let m3 : ℚ := if present.contains "Retail Distribution" then 1 else 0
  (m1 + m2 + m3) / 3

/-- `_calculate_license_score` (feature 4): the operative check is the loose
fallback `re.search(r'\d', license) and ('/' in license or '-' in license)`
(the stricter regex is assigned but never used); pass scores 1, fail 0. -/
def calculate_license_score (drug : DrugData) : ℚ :=
  if drug.license_number.toList.any Char.isDigit ∧
      (drug.license_number.contains '/' ∨ drug.license_number.contains '-') then 1
  else 0

/-- `_calculate_price_deviation` (feature 5): deviation of the declared MRP
from the market average for the drug name (default: the MRP itself, making
the deviation zero), banded; a zero average scores 1. -/
def calculate_price_deviation (drug : DrugData) : ℚ :=
  let avg_price := (market_prices drug.drug_name).getD drug.mrp
  if avg_price = 0 then 1
  else
    let deviation := |drug.mrp - avg_price| / avg_price
    if deviation ≤ 1/10 then 1
    else if deviation ≤ 3/10 then 7/10
    else if deviation ≤ 1/2 then 3/10
    else 0

/-- `_get_expected_travel_time`: `route_times.get(key) or
route_times.get(reverse_key, 24)` — a missing (or zero, by Python
truthiness) forward entry falls back to the reverse entry, default 24 h. -/
def get_expected_travel_time (loc1 loc2 : String) : ℚ :=
  match route_times loc1 loc2 with
  | some v => if v = 0 then (route_times loc2 loc1).getD 24 else v
  | none => (route_times loc2 loc1).getD 24

/-- The ratio banding of `_calculate_temporal_consistency`, in the source's
if/elif order: `0.5 ≤ r ≤ 2` scores 1; otherwise `r ≤ 3` scores 0.7 (this
branch also captures every ratio below 0.5); otherwise `r < 0.3` would
score 0.3 but is unreachable; otherwise 0.5. -/
def temporal_band (r : ℚ) : ℚ :=
  if 1/2 ≤ r ∧ r ≤ 2 then 1
  else if r ≤ 3 then 7/10
  else if r < 3/10 then 3/10
  else 1/2

/-- The per-pair score of `_calculate_temporal_consistency`: expected route
duration zero scores 1 (dead in practice, the table has no zeros),
otherwise the band of actual elapsed hours over expected hours. -/
def pair_time_score (e1 e2 : Event) : ℚ :=
  let expected_hours := get_expected_travel_time e1.location e2.location
  if expected_hours = 0 then 1
  else temporal_band ((((e2.timestamp - e1.timestamp : ℤ) : ℚ) / 3600) / expected_hours)

/-- `_calculate_temporal_consistency` (feature 6): mean of the per-pair
scores over adjacent pairs; fewer than two events scores 1. -/
def calculate_temporal_consistency (events : List Event) : ℚ :=
  if events.length < 2 then 1
  else
    let scores := (adjacentPairs events).map (fun p => pair_time_score p.1 p.2)
    if scores = [] then 1 else scores.sum / (scores.length : ℚ)

/-- The `self.expected_regions` allow-list of
`_calculate_geofence_compliance`. -/
def expected_regions : List String :=
  ["Maharashtra", "Delhi", "Karnataka", "Tamil Nadu", "Gujarat", "Andhra Pradesh",
   "Mumbai", "Bangalore", "Chennai", "Ahmedabad", "Hyderabad"]

/-- Python's substring test `need in hay`. -/
def str_contains (hay need : String) : Bool :=
  (List.range (hay.toList.length + 1)).any
    (fun i => ((hay.toList.drop i).take need.toList.length) == need.toList)

/-- `_calculate_geofence_compliance` (feature 7): fraction of events whose
location text contains one of the expected regions; no events scores 1. -/
def calculate_geofence_compliance (events : List Event) : ℚ :=
  if events = [] then 1
  else
    let compliant := events.countP (fun e => expected_regions.any (fun r => str_contains e.location r))
    (compliant : ℚ) / (events.length : ℚ)

/-- Whether a pair enters the speed computation of
`_calculate_speed_severity`: Python's `all([lat1, lon1, lat2, lon2])` —
a coordinate that is `None` OR `0.0` disqualifies the pair. -/
def pair_has_gps (e1 e2 : Event) : Bool :=
  truthyCoord e1.latitude && truthyCoord e1.longitude &&
    truthyCoord e2.latitude && truthyCoord e2.longitude

/-- `_calculate_speed_between_events`: haversine distance over elapsed
hours; a zero elapsed time returns speed 0 (source comment: same time). -/
def calculate_speed_between_events (dist : Event → Event → ℚ) (e1 e2 : Event) : ℚ :=
  let time_hours : ℚ := ((e2.timestamp - e1.timestamp : ℤ) : ℚ) / 3600
  if time_hours = 0 then 0
  else dist e1 e2 / time_hours

/-- `_calculate_speed_severity` (feature 8, inverted polarity): maximum
pairwise speed over adjacent pairs that have full non-zero GPS, banded into
severities 0 / 0.3 / 0.6 / 1; fewer than two events scores 0. -/
def calculate_speed_severity (dist : Event → Event → ℚ) (events : List Event) : ℚ :=
  if events.length < 2 then 0
  else
    let max_speed := (adjacentPairs events).foldl
      (fun m p =>
        if pair_has_gps p.1 p.2 then max m (calculate_speed_between_events dist p.1 p.2)
        else m) 0
    if max_speed < 200 then 0
    else if max_speed < 500 then 3/10
    else if max_speed < 900 then 3/5
    else 1

/-- `_calculate_batch_health` (feature 9): one minus the flagged fraction of
sibling units in the batch; an empty batch id or a batch of at most one
unit scores 1. -/
def calculate_batch_health (db : DB) (batch_id : String) : ℚ :=
  if batch_id = "" then 1
  else
    let batch_drugs := db.drugsByBatch batch_id
    if batch_drugs.length ≤ 1 then 1
    else
      let flagged := batch_drugs.countP db.hasFailedAttempts
      1 - (flagged : ℚ) / (batch_drugs.length : ℚ)

/-- Hour of day and weekday test of `_calculate_temporal_pattern`: business
hours are Mon-Fri 9-18 and Sat 9-13 (Python `weekday()` has Monday = 0; the
epoch day 1970-01-01 was a Thursday = 3). -/
def is_business_hours (t : ℤ) : Bool :=
  let hour := Int.emod (Int.fdiv t 3600) 24
  let weekday := Int.emod (Int.fdiv t 86400 + 3) 7
  if weekday < 5 then decide (9 ≤ hour ∧ hour ≤ 18)
  else if weekday = 5 then decide (9 ≤ hour ∧ hour ≤ 13)
  else false

/-- `_calculate_temporal_pattern` (feature 10): banded fraction of events
scanned during business hours; no events scores 1. -/
def calculate_temporal_pattern (events : List Event) : ℚ :=
  if events = [] then 1
  else
    let business := events.countP (fun e => is_business_hours e.timestamp)
    let frac := (business : ℚ) / (events.length : ℚ)
    if frac ≥ 4/5 then 1
    else if frac ≥ 1/2 then 7/10
    else 3/10

/-- The ten-element feature dictionary returned by
`FeatureExtractorV2.extract_features`, as a fixed-shape record in insertion
order.  The second field's Python key is `unique_locations_` followed by
the word for a quotient of counts; it is shortened here. -/
structure FeatureVector where
  scan_frequency_score : ℚ
  unique_locations : ℚ
  supply_chain_completeness : ℚ
  license_validity_score : ℚ
  price_deviation_score : ℚ
  temporal_consistency_score : ℚ
  geofence_compliance_score : ℚ
  speed_anomaly_severity : ℚ
  batch_health_score : ℚ
  historical_pattern_score : ℚ
deriving DecidableEq

/-- The ten feature values in dictionary insertion order. -/
def FeatureVector.toList (v : FeatureVector) : List ℚ :=
  [v.scan_frequency_score, v.unique_locations, v.supply_chain_completeness,
   v.license_validity_score, v.price_deviation_score, v.temporal_consistency_score,
   v.geofence_compliance_score, v.speed_anomaly_severity, v.batch_health_score,
   v.historical_pattern_score]

/-- `FeatureExtractorV2.extract_features` (feature_extractor.py lines
67-191): assembles the ten sub-scorer outputs. -/
def extract_features (db : DB) (dist : Event → Event → ℚ) (drug : DrugData)
    (events : List Event) : FeatureVector :=
  { scan_frequency_score := calculate_scan_frequency events
    unique_locations := calculate_unique_locations events
    supply_chain_completeness := calculate_completeness events
    license_validity_score := calculate_license_score drug
    price_deviation_score := calculate_price_deviation drug
    temporal_consistency_score := calculate_temporal_consistency events
    geofence_compliance_score := calculate_geofence_compliance events
    speed_anomaly_severity := calculate_speed_severity dist events
    batch_health_score := calculate_batch_health db drug.batch_id
    historical_pattern_score := calculate_temporal_pattern events }

/-! ### backend/ml_models/counterfeit_classifier.py and
backend/ml_models/train_random_forest.py -/

/-- The confidence banding in `CounterfeitClassifier.predict`
(counterfeit_classifier.py lines 97-105): confidence at least 0.9 is
`CRITICAL`, at least 0.7 `HIGH`, at least 0.5 `MEDIUM`, else `LOW`. -/
def risk_level_of (confidence : ℚ) : String :=
  if confidence ≥ 9/10 then "CRITICAL"
  else if confidence ≥ 7/10 then "HIGH"
  else if confidence ≥ 1/2 then "MEDIUM"
  else "LOW"

/-- The result dict of `CounterfeitClassifier.predict` (the feature echo and
explanation fields are omitted). -/
structure PredictResult where
  is_counterfeit : Bool
  confidence : ℚ
  probability_authentic : ℚ
  probability_counterfeit : ℚ
  risk_level : String
  verdict : String
deriving DecidableEq

/-- The result assembly of `CounterfeitClassifier.predict`
(counterfeit_classifier.py lines 86-119).  The class probabilities and the
predicted class come from the pickled random-forest model (not part of the
source tree) and are taken as inputs; `confidence` is the probability of
the predicted class, and `risk_level` bands the confidence. -/
def predict_result (prob_authentic prob_counterfeit : ℚ) (prediction : Bool) : PredictResult :=
  let is_counterfeit := prediction
  let confidence := if is_counterfeit then prob_counterfeit else prob_authentic
  { is_counterfeit := is_counterfeit
    confidence := confidence
    probability_authentic := prob_authentic
    probability_counterfeit := prob_counterfeit
    risk_level := risk_level_of confidence
    verdict := if is_counterfeit then "COUNTERFEIT" else "AUTHENTIC" }

inductive Tier where
  | AUTHENTIC
  | REVIEW
  | SUSPICIOUS
  | COUNTERFEIT
deriving DecidableEq

/-- The four-tier bucketing of the counterfeit probability defined in the
training evaluation script (train_random_forest.py lines 256-260, repeated
in test_rf_v2_scenarios.py): below 0.50 AUTHENTIC, below 0.75 REVIEW,
below 0.85 SUSPICIOUS, else COUNTERFEIT. -/
def tier_of (p : ℚ) : Tier :=
  if p < 1/2 then Tier.AUTHENTIC
  else if p < 3/4 then Tier.REVIEW
  else if p < 17/20 then Tier.SUSPICIOUS
  else Tier.COUNTERFEIT

/-- The tier bucketing exactly as the claim words it, returning the tier
name the claim assigns to a counterfeit probability `p`; written from the
claim, for comparison with the bucketing the classifier actually returns. -/
def claimed_tier_name (p : ℚ) : String :=
  if p < 1/2 then "AUTHENTIC"
  else if p < 3/4 then "REVIEW"
  else if p < 17/20 then "SUSPICIOUS"
  else "COUNTERFEIT"

/-- Modelled from the spec: the pickled random-forest decision function
(`trained_models/rf_classifier.pkl`, loaded by
`CounterfeitClassifier.__init__`) is not part of the source tree.  The spec
describes the acceptable substitute: a normalized weighted sum over the ten
scores with license validity and speed severity weighted highest, where the
nine consistency-polarity features lower the counterfeit probability as
they grow and the single anomaly-polarity feature (speed-anomaly severity)
raises it.  Weights 3 for the two highlighted features and 1 for the rest;
the sum of weights is 14, so the output is in [0,1] on [0,1] features. -/
def counterfeit_probability (v : FeatureVector) : ℚ :=
  ((1 - v.scan_frequency_score) + (1 - v.unique_locations) +
   (1 - v.supply_chain_completeness) + 3 * (1 - v.license_validity_score) +
   (1 - v.price_deviation_score) + (1 - v.temporal_consistency_score) +
   (1 - v.geofence_compliance_score) + 3 * v.speed_anomaly_severity +
   (1 - v.batch_health_score) + (1 - v.historical_pattern_score)) / 14

/-! ### backend/main.py `verify_drug` and
backend/database_OLD_BACKUP.py `log_failed_attempt` -/

/-- One row appended to the `failed_attempts` table by
`log_failed_attempt(scanned_id, attempt_type, reason)`. -/
structure LoggedAttempt where
  scanned_id : String
  attempt_type : String
  reason : String
deriving DecidableEq

/-- The part of the ML prediction that `verify_drug` branches on.  In the
shipped tree the ML stage never runs: `counterfeit_classifier.py` imports
`extract_features` and `features_to_vector` from `feature_extractor`, which
defines neither, so the import guard in main.py sets `ML_ENABLED = False`
and `verify_drug` receives no prediction (`none` here). -/
structure MLPrediction where
  is_counterfeit : Bool
  confidence : ℚ
deriving DecidableEq

/-- The observable outcome of a `/verify/{unique_id}` request: the response
status and the `failed_attempts` rows appended during the request. -/
structure VerifyOutcome where
  status : String
  logged : List LoggedAttempt
deriving DecidableEq

/-- `verify_drug` (main.py lines 313-445).  The store lookups (drug record,
supply chain rows, recent scan count) and the optional ML prediction are
inputs.  An unknown id logs one `INVALID_ID` failed attempt and returns
status `fake`; a confident ML counterfeit verdict returns `suspicious`;
otherwise with at least two supply-chain rows the safety report is built
and a `CRITICAL` risk level logs one `ANOMALY_DETECTED` attempt and
returns `suspicious`; every other path returns `authentic`. -/
def verify_drug (dist : Event → Event → ℚ) (unique_id : String)
    (drug : Option DrugData) (supply_chain : List Event) (scan_count : ℕ)
    (ml : Option MLPrediction) : VerifyOutcome :=
  match drug with
  | none =>
    { status := "fake"
      logged := [⟨unique_id, "INVALID_ID", "Drug not found in database - Possible counterfeit"⟩] }
  | some _ =>
    let ml_flag := match ml with
      | some p => p.is_counterfeit && decide (p.confidence > 3/4)
      | none => false
    if ml_flag then
      { status := "suspicious"
        logged := [⟨unique_id, "ML_COUNTERFEIT_DETECTED", "Random Forest prediction"⟩] }
    else if supply_chain.length ≥ 2 then
      let report := analyze_drug_safety dist supply_chain scan_count
      if report.risk_level = "CRITICAL" then
        { status := "suspicious"
          logged := [⟨unique_id, "ANOMALY_DETECTED", "Impossible travel speed detected"⟩] }
      else
        { status := "authentic", logged := [] }
    else
      { status := "authentic", logged := [] }

/-! ### Concrete fixtures

Distance oracles below stand for the haversine values at the specific
coordinate pairs they are evaluated on; each is only ever applied to the
events of the fixture list next to it. -/

/-- Mumbai checkpoint at time 0 (coordinates 19.0760, 72.8777). -/
def mumbaiEv : Event :=
  ⟨"Mumbai", some (190760/10000), some (728777/10000), "Factory Production", 0⟩

/-- Delhi checkpoint 10 minutes later (coordinates 28.7041, 77.1025). -/
def delhi10min : Event :=
  ⟨"Delhi", some (287041/10000), some (771025/10000), "Warehouse Receipt", 600⟩

/-- Delhi checkpoint 2 hours after time 0. -/
def delhi2h : Event :=
  ⟨"Delhi", some (287041/10000), some (771025/10000), "Warehouse Receipt", 7200⟩

/-- Delhi checkpoint at time 0 (same instant as `mumbaiEv`). -/
def delhi0 : Event :=
  ⟨"Delhi", some (287041/10000), some (771025/10000), "Warehouse Receipt", 0⟩

/-- Distance oracle for Mumbai-Delhi pairs: the haversine distance between
the two cities is about 1153 km. -/
def dist1153 : Event → Event → ℚ := fun _ _ => 1153

/-- Distance oracle returning zero, the haversine value on a pair of
identical coordinates. -/
def dist0 : Event → Event → ℚ := fun _ _ => 0

/-- Surat checkpoint 2 hours after time 0 (about 300 km from Mumbai). -/
def suratEv : Event :=
  ⟨"Surat", some (211702/10000), some (728311/10000), "Warehouse Receipt", 7200⟩

/-- Distance oracle for the Mumbai-Surat pair, about 300 km. -/
def dist300 : Event → Event → ℚ := fun _ _ => 300

/-- A series whose only transition is Mumbai to Surat in 2 hours: 150 km/h
over 300 km, a MEDIUM `UNUSUAL_SPEED` anomaly and nothing else. -/
def mediumOnlyEvents : List Event := [mumbaiEv, suratEv]

/-- Checkpoints on the equator/prime-meridian grid with a zero latitude:
excluded from the speed computation by Python truthiness. -/
def zeroLatA : Event := ⟨"Gulf of Guinea", some 0, some 70, "Factory Production", 0⟩

/-- Second zero-latitude checkpoint one minute later, far away. -/
def zeroLatB : Event := ⟨"Indian Ocean", some 0, some 80, "Warehouse Receipt", 60⟩

/-- Distance oracle for the two zero-latitude points, about 1113 km. -/
def dist1113 : Event → Event → ℚ := fun _ _ => 1113

/-- A database collaborator with no batch siblings and no failures. -/
def demoDB : DB := ⟨fun _ => [], fun _ => false⟩

/-- A seed-data drug record (Dolo 650 at its market price). -/
def demoDrug : DrugData := ⟨"Dolo 650", "C28C623D", "20B/UA/2018", 61/2⟩

/-- A feature vector with every score 1 (speed-anomaly severity maximal). -/
def vVecAnomalous : FeatureVector := ⟨1, 1, 1, 1, 1, 1, 1, 1, 1, 1⟩

/-- The same feature vector with speed-anomaly severity 0. -/
def wVecCalm : FeatureVector := ⟨1, 1, 1, 1, 1, 1, 1, 0, 1, 1⟩

/-! ### Helper lemmas and fixture evaluations -/

/-- Fewer than two events have no adjacent pairs. -/
lemma adjacentPairs_short (events : List Event) (h : events.length < 2) :
    adjacentPairs events = [] := by
  cases events with
  | nil => rfl
  | cons a t =>
    cases t with
    | nil => rfl
    | cons b t2 => simp only [List.length_cons] at h; omega

/-- Mumbai to Delhi in 10 minutes computes to 6918 km/h. -/
lemma speed_cloning_eval :
    calculate_travel_speed dist1153 mumbaiEv delhi10min = some 6918 := by
  norm_num [calculate_travel_speed, dist1153, mumbaiEv, delhi10min]

/-- Mumbai to Surat in 2 hours computes to 150 km/h. -/
lemma speed_medium_eval :
    calculate_travel_speed dist300 mumbaiEv suratEv = some 150 := by
  norm_num [calculate_travel_speed, dist300, mumbaiEv, suratEv]

/-- The Mumbai-to-Surat pair is classified as a MEDIUM `UNUSUAL_SPEED`
anomaly (150 km/h over 300 km). -/
lemma classify_medium_eval :
    classify_pair dist300 mumbaiEv suratEv =
      some ⟨AnomalyType.UNUSUAL_SPEED, Severity.MEDIUM, "Mumbai", "Surat", 300, some 150⟩ := by
  have h120 : speed_exceeds (some (150 : ℚ)) 120 = true := by norm_num [speed_exceeds]
  have h900 : speed_exceeds (some (150 : ℚ)) 900 = false := by norm_num [speed_exceeds]
  simp [classify_pair, h120, h900, speed_medium_eval, dist300]
  norm_num [mumbaiEv, suratEv]

/-- The MEDIUM-only Mumbai-to-Surat series yields exactly that one
anomaly record. -/
lemma detect_mediumOnly_eval :
    detect_cloning_attempt dist300 mediumOnlyEvents =
      [⟨AnomalyType.UNUSUAL_SPEED, Severity.MEDIUM, "Mumbai", "Surat", 300, some 150⟩] := by
  simp [detect_cloning_attempt, mediumOnlyEvents, adjacentPairs, List.zip,
    List.filterMap_cons, classify_medium_eval]

/-- A zero scan count does not fire the frequency guard. -/
lemma scan_zero_eval : check_scan_frequency 0 = none := rfl

/-- The safety report for the MEDIUM-only Mumbai-to-Surat series. -/
lemma analyze_mediumOnly_eval :
    analyze_drug_safety dist300 mediumOnlyEvents 0 =
      { total_events := 2
        cloning_alerts :=
          [⟨AnomalyType.UNUSUAL_SPEED, Severity.MEDIUM, "Mumbai", "Surat", 300, some 150⟩]
        scan_frequency_alert := none
        overall_status := "SUSPICIOUS"
        risk_level := "CRITICAL" } := by
  simp only [analyze_drug_safety, detect_mediumOnly_eval, scan_zero_eval]
  norm_num [mediumOnlyEvents]

/-! ### Claim C1 -/

/-- Claim C1: for every checkpoint series, the cloning detector classifies
each adjacent pair independently; a pair with speed above 900 km/h yields
exactly one CRITICAL `CLONING_SUSPECTED` record, a pair with speed in
(120, 900] km/h and distance above 50 km yields exactly one MEDIUM
`UNUSUAL_SPEED` record, any other pair yields no record, and a series with
fewer than two checkpoints yields the empty list. -/
theorem claim1_pairwise_thresholds (dist : Event → Event → ℚ) (events : List Event) :
    (events.length < 2 → detect_cloning_attempt dist events = []) ∧
    detect_cloning_attempt dist events =
      (adjacentPairs events).filterMap (fun p => classify_pair dist p.1 p.2) ∧
    ∀ e1 e2 : Event,
      (speed_exceeds (calculate_travel_speed dist e1 e2) 900 = true →
        ∃ a : Anomaly, classify_pair dist e1 e2 = some a ∧
          a.severity = Severity.CRITICAL ∧ a.type = AnomalyType.CLONING_SUSPECTED) ∧
      (speed_exceeds (calculate_travel_speed dist e1 e2) 900 = false →
        speed_exceeds (calculate_travel_speed dist e1 e2) 120 = true →
        dist e1 e2 > 50 →
        ∃ a : Anomaly, classify_pair dist e1 e2 = some a ∧
          a.severity = Severity.MEDIUM ∧ a.type = AnomalyType.UNUSUAL_SPEED) ∧
      (speed_exceeds (calculate_travel_speed dist e1 e2) 900 = false →
        ¬(speed_exceeds (calculate_travel_speed dist e1 e2) 120 = true ∧ dist e1 e2 > 50) →
        classify_pair dist e1 e2 = none) := by
  refine ⟨?_, ?_, ?_⟩
  · intro h
    simp [detect_cloning_attempt, if_pos h]
  · by_cases h : events.length < 2
    · rw [adjacentPairs_short events h]
      simp [detect_cloning_attempt, if_pos h]
    · simp [detect_cloning_attempt, if_neg h]
  · intro e1 e2
    refine ⟨?_, ?_, ?_⟩
    · intro h
      refine ⟨⟨AnomalyType.CLONING_SUSPECTED, Severity.CRITICAL, e1.location, e2.location,
        dist e1 e2, calculate_travel_speed dist e1 e2⟩, ?_, rfl, rfl⟩
      simp [classify_pair, h]
    · intro h1 h2 h3
      refine ⟨⟨AnomalyType.UNUSUAL_SPEED, Severity.MEDIUM, e1.location, e2.location,
        dist e1 e2, calculate_travel_speed dist e1 e2⟩, ?_, rfl, rfl⟩
      simp [classify_pair, h1, h2, h3]
    · intro h1 h2
      cases hs : speed_exceeds (calculate_travel_speed dist e1 e2) 120 with
      | false => simp [classify_pair, h1, hs]
      | true =>
        have hd : ¬ (dist e1 e2 > 50) := fun hgt => h2 ⟨hs, hgt⟩
        simp [classify_pair, h1, hs, hd]

/-- Witness for C1: Mumbai to Delhi in 10 minutes (about 1153 km, hence
6918 km/h) is classified as a CRITICAL `CLONING_SUSPECTED` record. -/
theorem claim1_witness :
    ∃ a : Anomaly, classify_pair dist1153 mumbaiEv delhi10min = some a ∧
      a.severity = Severity.CRITICAL ∧ a.type = AnomalyType.CLONING_SUSPECTED :=
  ((claim1_pairwise_thresholds dist1153 [mumbaiEv, delhi10min]).2.2 mumbaiEv delhi10min).1
    (by rw [speed_cloning_eval]; norm_num [speed_exceeds])

/-! ### Claim C4 -/

/-- Zero elapsed time makes `calculate_travel_speed` return infinity. -/
lemma speed_dup_eval : calculate_travel_speed dist0 mumbaiEv mumbaiEv = none := by
  norm_num [calculate_travel_speed, mumbaiEv]

/-- A duplicated Mumbai checkpoint is classified CRITICAL. -/
lemma classify_dup_eval :
    classify_pair dist0 mumbaiEv mumbaiEv =
      some ⟨AnomalyType.CLONING_SUSPECTED, Severity.CRITICAL, "Mumbai", "Mumbai", 0, none⟩ := by
  simp [classify_pair, speed_dup_eval, speed_exceeds, dist0]
  norm_num [mumbaiEv]

/-- The Mumbai-Delhi zero-duration pair has full non-zero GPS. -/
lemma gps_mumbai_delhi0_eval : pair_has_gps mumbaiEv delhi0 = true := by
  norm_num [pair_has_gps, truthyCoord, mumbaiEv, delhi0, Bool.and_eq_true, bne_iff_ne]

/-- Zero elapsed time makes `_calculate_speed_between_events` return 0. -/
lemma speed_between_delhi0_eval :
    calculate_speed_between_events dist1153 mumbaiEv delhi0 = 0 := by
  norm_num [calculate_speed_between_events, mumbaiEv, delhi0]

/-- Counterexample for C4: a duplicated checkpoint (same place, same
timestamp, haversine distance 0) is classified as a CRITICAL
`CLONING_SUSPECTED` anomaly by the cloning detector, where the claim says a
zero-duration zero-distance transition is non-anomalous; and a
zero-duration positive-distance transition (Mumbai and Delhi at the same
instant, 1153 km apart) gets speed-anomaly severity 0 rather than the
claimed maximal severity 1. -/
theorem claim4_zero_elapsed_cex :
    detect_cloning_attempt dist0 [mumbaiEv, mumbaiEv] =
      [⟨AnomalyType.CLONING_SUSPECTED, Severity.CRITICAL, "Mumbai", "Mumbai", 0, none⟩] ∧
    dist0 mumbaiEv mumbaiEv = 0 ∧
    calculate_speed_severity dist1153 [mumbaiEv, delhi0] = 0 ∧
    dist1153 mumbaiEv delhi0 = 1153 := by
  refine ⟨?_, rfl, ?_, rfl⟩
  · simp [detect_cloning_attempt, adjacentPairs, List.zip, List.filterMap_cons,
      classify_dup_eval]
  · norm_num [calculate_speed_severity, adjacentPairs, List.zip,
      gps_mumbai_delhi0_eval, speed_between_delhi0_eval]

/-- Claim C4 as amended: a zero-elapsed transition never raises a fault;
`calculate_travel_speed` returns infinite speed regardless of distance, so
the cloning classifier emits a CRITICAL `CLONING_SUSPECTED` record even
for zero distance, while `_calculate_speed_between_events` returns speed 0
regardless of distance, so the speed-severity feature never treats a
zero-duration transition as anomalous even for positive distance. -/
theorem claim4_zero_elapsed (dist : Event → Event → ℚ) (e1 e2 : Event)
    (h : e1.timestamp = e2.timestamp) :
    calculate_travel_speed dist e1 e2 = none ∧
    classify_pair dist e1 e2 =
      some ⟨AnomalyType.CLONING_SUSPECTED, Severity.CRITICAL,
            e1.location, e2.location, dist e1 e2, none⟩ ∧
    calculate_speed_between_events dist e1 e2 = 0 := by
  have h0 : ((e2.timestamp - e1.timestamp : ℤ) : ℚ) = 0 := by
    rw [h]
    simp
  have h0' : (e2.timestamp : ℚ) - (e1.timestamp : ℚ) = 0 := by
    rw [h]
    ring
  have hsp : calculate_travel_speed dist e1 e2 = none := by
    simp [calculate_travel_speed, h0, h0']
  refine ⟨hsp, ?_, ?_⟩
  · simp [classify_pair, hsp, speed_exceeds]
  · simp [calculate_speed_between_events, h0, h0']

/-- Witness for the amended C4, at the concrete zero-duration
Mumbai-to-Delhi pair. -/
theorem claim4_witness :
    calculate_travel_speed dist1153 mumbaiEv delhi0 = none ∧
    classify_pair dist1153 mumbaiEv delhi0 =
      some ⟨AnomalyType.CLONING_SUSPECTED, Severity.CRITICAL,
            "Mumbai", "Delhi", 1153, none⟩ ∧
    calculate_speed_between_events dist1153 mumbaiEv delhi0 = 0 :=
  claim4_zero_elapsed dist1153 mumbaiEv delhi0 rfl

/-! ### Claim C2 -/

/-- Counterexample for C2: a unit whose only anomaly is a MEDIUM
`UNUSUAL_SPEED` record (Mumbai to Surat, 300 km in 2 h), with the
scan-frequency guard silent and the classifier tier AUTHENTIC, still gets
overall status SUSPICIOUS — the claimed equivalence fails. -/
theorem claim2_overall_status_cex :
    ¬ (((analyze_drug_safety dist300 mediumOnlyEvents 0).overall_status = "SUSPICIOUS") ↔
      ((∃ a ∈ (analyze_drug_safety dist300 mediumOnlyEvents 0).cloning_alerts,
          a.severity = Severity.CRITICAL) ∨
        (analyze_drug_safety dist300 mediumOnlyEvents 0).scan_frequency_alert ≠ none ∨
        tier_of 0 = Tier.SUSPICIOUS ∨ tier_of 0 = Tier.COUNTERFEIT)) := by
  intro hiff
  have htier : tier_of 0 = Tier.AUTHENTIC := by norm_num [tier_of]
  have h2 := hiff.mp (by rw [analyze_mediumOnly_eval])
  rcases h2 with ⟨a, ha, hcrit⟩ | hB | hC | hD
  · rw [analyze_mediumOnly_eval] at ha
    simp only [SafetyReport.cloning_alerts] at ha
    simp only [List.mem_singleton] at ha
    rw [ha] at hcrit
    simp at hcrit
  · rw [analyze_mediumOnly_eval] at hB
    exact hB rfl
  · rw [htier] at hC
    simp at hC
  · rw [htier] at hD
    simp at hD

/-- Claim C2 as amended: the overall status is SUSPICIOUS exactly when the
cloning detector found any anomaly (CRITICAL or MEDIUM) or the
scan-frequency guard fired, and SAFE exactly otherwise; the RiskClassifier
tier plays no part in the overall status. -/
theorem claim2_overall_status (dist : Event → Event → ℚ) (events : List Event)
    (scan_count : ℕ) :
    ((analyze_drug_safety dist events scan_count).overall_status = "SUSPICIOUS" ↔
      (detect_cloning_attempt dist events ≠ [] ∨ check_scan_frequency scan_count ≠ none)) ∧
    ((analyze_drug_safety dist events scan_count).overall_status = "SAFE" ↔
      (detect_cloning_attempt dist events = [] ∧ check_scan_frequency scan_count = none)) := by
  simp only [analyze_drug_safety]
  split_ifs with h
  · refine ⟨⟨fun hs => absurd hs (by decide), fun hor => ?_⟩, ⟨fun _ => h, fun _ => rfl⟩⟩
    rcases hor with hh | hh
    · exact absurd h.1 hh
    · exact absurd h.2 hh
  · have h' := not_and_or.mp h
    exact ⟨⟨fun _ => h', fun _ => rfl⟩,
      ⟨fun hs => absurd hs (by decide), fun hab => absurd hab h⟩⟩

/-- Witness for the amended C2, at the concrete MEDIUM-only series. -/
theorem claim2_witness :
    (analyze_drug_safety dist300 mediumOnlyEvents 0).overall_status = "SUSPICIOUS" :=
  (claim2_overall_status dist300 mediumOnlyEvents 0).1.mpr
    (Or.inl (by rw [detect_mediumOnly_eval]; simp))

/-! ### Claim C3 -/

/-- Counterexample for C3: at counterfeit probability 0.6 (with the model
predicting the counterfeit class), the claim's tiering says REVIEW, but the
bucketing `CounterfeitClassifier.predict` actually returns is the risk
level MEDIUM computed from the confidence. -/
theorem claim3_tiering_cex :
    (predict_result (2/5) (3/5) true).risk_level = "MEDIUM" ∧
    claimed_tier_name (3/5) = "REVIEW" ∧
    (predict_result (2/5) (3/5) true).risk_level ≠ claimed_tier_name (3/5) := by
  have hL : (predict_result (2/5) (3/5) true).risk_level = "MEDIUM" := by
    norm_num [predict_result, risk_level_of]
  have hR : claimed_tier_name (3/5) = "REVIEW" := by
    norm_num [claimed_tier_name]
  refine ⟨hL, hR, ?_⟩
  rw [hL, hR]
  decide

/-- Claim C3 as amended: `predict` returns the confidence — the probability
of the predicted class — bucketed into the four ordered risk levels LOW
(below 0.5), MEDIUM ([0.5, 0.7)), HIGH ([0.7, 0.9)) and CRITICAL (at least
0.9); the four named tiers with the claimed boundaries 0.50 / 0.75 / 0.85
over the counterfeit probability are computed by the offline training
evaluation script (`tier_of`), not returned by `predict`. -/
theorem claim3_tiering :
    (∀ pa pc : ℚ, (predict_result pa pc true).confidence = pc ∧
      (predict_result pa pc false).confidence = pa) ∧
    (∀ pa pc : ℚ, ∀ b : Bool, (predict_result pa pc b).risk_level =
      risk_level_of ((predict_result pa pc b).confidence)) ∧
    (∀ c : ℚ,
      (c < 1/2 → risk_level_of c = "LOW") ∧
      (1/2 ≤ c → c < 7/10 → risk_level_of c = "MEDIUM") ∧
      (7/10 ≤ c → c < 9/10 → risk_level_of c = "HIGH") ∧
      (9/10 ≤ c → risk_level_of c = "CRITICAL")) ∧
    (∀ p : ℚ,
      (p < 1/2 → tier_of p = Tier.AUTHENTIC) ∧
      (1/2 ≤ p → p < 3/4 → tier_of p = Tier.REVIEW) ∧
      (3/4 ≤ p → p < 17/20 → tier_of p = Tier.SUSPICIOUS) ∧
      (17/20 ≤ p → tier_of p = Tier.COUNTERFEIT)) := by
  refine ⟨fun pa pc => ⟨rfl, rfl⟩, fun pa pc b => rfl, ?_, ?_⟩
  · intro c
    refine ⟨?_, ?_, ?_, ?_⟩ <;> intros <;> unfold risk_level_of <;>
      split_ifs <;> first | rfl | (exfalso; linarith)
  · intro p
    refine ⟨?_, ?_, ?_, ?_⟩ <;> intros <;> unfold tier_of <;>
      split_ifs <;> first | rfl | (exfalso; linarith)

/-- Witness for the amended C3, at confidence and probability 0.6. -/
theorem claim3_witness :
    risk_level_of (3/5) = "MEDIUM" ∧ tier_of (3/5) = Tier.REVIEW :=
  ⟨(claim3_tiering.2.2.1 (3/5)).2.1 (by norm_num) (by norm_num),
   (claim3_tiering.2.2.2 (3/5)).2.1 (by norm_num) (by norm_num)⟩

/-! ### Claim C5: feature bounds -/

/-- The mean of a list of values in the unit interval is in the unit
interval (an empty list gives 0/0 = 0, also in bounds). -/
lemma mean_bounds (l : List ℚ) (h0 : ∀ x ∈ l, 0 ≤ x) (h1 : ∀ x ∈ l, x ≤ 1) :
    0 ≤ l.sum / (l.length : ℚ) ∧ l.sum / (l.length : ℚ) ≤ 1 := by
  constructor
  · exact div_nonneg (List.sum_nonneg h0) (by positivity)
  · rcases eq_or_ne l [] with rfl | hne
    · simp
    · have hpos : (0 : ℚ) < l.length := by exact_mod_cast List.length_pos.mpr hne
      rw [div_le_one hpos]
      calc l.sum ≤ l.length • (1 : ℚ) := List.sum_le_card_nsmul l 1 h1
        _ = l.length := by simp

lemma scan_frequency_bounds (events : List Event) :
    0 ≤ calculate_scan_frequency events ∧ calculate_scan_frequency events ≤ 1 := by
  rcases events with _ | ⟨e0, rest⟩
  · simp [calculate_scan_frequency]
  · simp only [calculate_scan_frequency]
    split_ifs <;> norm_num

lemma unique_locations_bounds (events : List Event) :
    0 ≤ calculate_unique_locations events ∧ calculate_unique_locations events ≤ 1 := by
  rcases eq_or_ne events [] with rfl | hne
  · simp [calculate_unique_locations]
  · simp only [calculate_unique_locations, if_neg hne]
    split_ifs with h
    · norm_num
    · have hpos : (0 : ℚ) < events.length := by exact_mod_cast List.length_pos.mpr hne
      constructor
      · positivity
      · rw [div_le_one hpos]
        have hle : ((events.filterMap (fun e =>
            match e.latitude, e.longitude with
            | some la, some lo => some (round3 la, round3 lo)
            | _, _ => none)).dedup).length ≤ events.length :=
          le_trans (List.Sublist.length_le (List.dedup_sublist _))
            (List.length_filterMap_le _ _)
        exact_mod_cast hle

lemma completeness_bounds (events : List Event) :
    0 ≤ calculate_completeness events ∧ calculate_completeness events ≤ 1 := by
  simp only [calculate_completeness]
  split_ifs <;> norm_num

lemma license_bounds (drug : DrugData) :
    0 ≤ calculate_license_score drug ∧ calculate_license_score drug ≤ 1 := by
  simp only [calculate_license_score]
  split_ifs <;> norm_num

lemma price_bounds (drug : DrugData) :
    0 ≤ calculate_price_deviation drug ∧ calculate_price_deviation drug ≤ 1 := by
  simp only [calculate_price_deviation]
  split_ifs <;> norm_num

lemma temporal_band_bounds (r : ℚ) :
    0 ≤ temporal_band r ∧ temporal_band r ≤ 1 := by
  unfold temporal_band
  split_ifs <;> norm_num

lemma pair_time_score_bounds (e1 e2 : Event) :
    0 ≤ pair_time_score e1 e2 ∧ pair_time_score e1 e2 ≤ 1 := by
  simp only [pair_time_score]
  split_ifs
  · norm_num
  · exact temporal_band_bounds _

lemma temporal_consistency_bounds (events : List Event) :
    0 ≤ calculate_temporal_consistency events ∧
    calculate_temporal_consistency events ≤ 1 := by
  simp only [calculate_temporal_consistency]
  split_ifs
  · norm_num
  · norm_num
  · refine mean_bounds _ ?_ ?_
    · intro x hx
      obtain ⟨p, hp, rfl⟩ := List.mem_map.mp hx
      exact (pair_time_score_bounds p.1 p.2).1
    · intro x hx
      obtain ⟨p, hp, rfl⟩ := List.mem_map.mp hx
      exact (pair_time_score_bounds p.1 p.2).2

lemma geofence_bounds (events : List Event) :
    0 ≤ calculate_geofence_compliance events ∧
    calculate_geofence_compliance events ≤ 1 := by
  rcases eq_or_ne events [] with rfl | hne
  · simp [calculate_geofence_compliance]
  · simp only [calculate_geofence_compliance, if_neg hne]
    have hpos : (0 : ℚ) < events.length := by exact_mod_cast List.length_pos.mpr hne
    constructor
    · positivity
    · rw [div_le_one hpos]
      exact_mod_cast List.countP_le_length _

lemma speed_severity_bounds (dist : Event → Event → ℚ) (events : List Event) :
    0 ≤ calculate_speed_severity dist events ∧
    calculate_speed_severity dist events ≤ 1 := by
  simp only [calculate_speed_severity]
  split_ifs <;> norm_num

lemma batch_health_bounds (db : DB) (batch_id : String) :
    0 ≤ calculate_batch_health db batch_id ∧
    calculate_batch_health db batch_id ≤ 1 := by
  simp only [calculate_batch_health]
  split_ifs with h1 h2
  · norm_num
  · norm_num
  · push_neg at h2
    have hpos : (0 : ℚ) < (db.drugsByBatch batch_id).length := by
      have : 0 < (db.drugsByBatch batch_id).length := by omega
      exact_mod_cast this
    have hfrac0 : (0 : ℚ) ≤
        ((db.drugsByBatch batch_id).countP db.hasFailedAttempts : ℚ) /
          ((db.drugsByBatch batch_id).length : ℚ) := by positivity
    have hfrac1 : ((db.drugsByBatch batch_id).countP db.hasFailedAttempts : ℚ) /
        ((db.drugsByBatch batch_id).length : ℚ) ≤ 1 := by
      rw [div_le_one hpos]
      exact_mod_cast List.countP_le_length _
    constructor <;> linarith

lemma temporal_pattern_bounds (events : List Event) :
    0 ≤ calculate_temporal_pattern events ∧
    calculate_temporal_pattern events ≤ 1 := by
  simp only [calculate_temporal_pattern]
  split_ifs <;> norm_num

/-- Claim C5: for every input — tracked-unit metadata (also adversarial:
empty license, negative price) plus any checkpoint list (also with
duplicate timestamps) — feature extraction returns exactly ten named
scores, every one in the closed interval [0, 1]. -/
theorem claim5_feature_bounds (db : DB) (dist : Event → Event → ℚ)
    (drug : DrugData) (events : List Event) :
    (extract_features db dist drug events).toList.length = 10 ∧
    ∀ x ∈ (extract_features db dist drug events).toList, 0 ≤ x ∧ x ≤ 1 := by
  refine ⟨rfl, ?_⟩
  intro x hx
  simp only [extract_features, FeatureVector.toList, List.mem_cons,
    List.not_mem_nil, or_false] at hx
  rcases hx with rfl | rfl | rfl | rfl | rfl | rfl | rfl | rfl | rfl | rfl
  · exact scan_frequency_bounds events
  · exact unique_locations_bounds events
  · exact completeness_bounds events
  · exact license_bounds drug
  · exact price_bounds drug
  · exact temporal_consistency_bounds events
  · exact geofence_bounds events
  · exact speed_severity_bounds dist events
  · exact batch_health_bounds db drug.batch_id
  · exact temporal_pattern_bounds events

/-- Witness for C5 at a concrete unit and series, checking the bounds for
the speed-anomaly-severity member of the returned vector. -/
theorem claim5_witness :
    0 ≤ calculate_speed_severity dist300 mediumOnlyEvents ∧
    calculate_speed_severity dist300 mediumOnlyEvents ≤ 1 :=
  (claim5_feature_bounds demoDB dist300 demoDrug mediumOnlyEvents).2 _
    (by simp [extract_features, FeatureVector.toList])

/-! ### Claim C6 -/

/-- Mumbai to Delhi in 2 hours against an expected 24 hours scores 0.7. -/
lemma pair_time_fast_eval : pair_time_score mumbaiEv delhi2h = 7/10 := by
  simp only [pair_time_score]
  have hexp : get_expected_travel_time mumbaiEv.location delhi2h.location = 24 := rfl
  rw [hexp]
  norm_num [temporal_band, mumbaiEv, delhi2h]

/-- Counterexample for C6: the Mumbai-to-Delhi pair covered in 2 hours has
ratio 1/12 of the expected 24-hour duration, below the claimed 0.3 band,
yet the series scores 0.7 (the `≤ 3.0` branch is tested first), not the
0.3 the claim assigns to ratios below 0.3. -/
theorem claim6_temporal_band_cex :
    calculate_temporal_consistency [mumbaiEv, delhi2h] = 7/10 ∧
    get_expected_travel_time "Mumbai" "Delhi" = 24 ∧
    ((2 : ℚ) / 24 < 3/10) ∧
    ((7 : ℚ)/10 ≠ 3/10) := by
  refine ⟨?_, rfl, by norm_num, by norm_num⟩
  norm_num [calculate_temporal_consistency, adjacentPairs, List.zip, pair_time_fast_eval]

/-- Claim C6 as amended: the temporal-consistency score of a series with at
least two checkpoints is the mean over adjacent pairs of the band value of
the ratio of actual elapsed time to the expected route duration (default
24 h when neither direction of the route is in the table); the bands are
tested in order — [0.5, 2] scores 1, then every remaining ratio at most 3
(including every ratio below 0.5, and hence below 0.3) scores 0.7, and
ratios above 3 score 0.5 — so the claimed 0.3 band for ratios below 0.3 is
unreachable and the band never returns 0.3; fewer than two checkpoints
scores 1. -/
theorem claim6_temporal_consistency :
    (∀ events : List Event, events.length < 2 →
      calculate_temporal_consistency events = 1) ∧
    (∀ events : List Event, 2 ≤ events.length →
      calculate_temporal_consistency events =
        ((adjacentPairs events).map (fun p => pair_time_score p.1 p.2)).sum /
          (((adjacentPairs events).map (fun p => pair_time_score p.1 p.2)).length : ℚ)) ∧
    (∀ e1 e2 : Event, get_expected_travel_time e1.location e2.location ≠ 0 →
      pair_time_score e1 e2 =
        temporal_band ((((e2.timestamp - e1.timestamp : ℤ) : ℚ) / 3600) /
          get_expected_travel_time e1.location e2.location)) ∧
    (∀ l1 l2 : String, route_times l1 l2 = none → route_times l2 l1 = none →
      get_expected_travel_time l1 l2 = 24) ∧
    (∀ r : ℚ,
      (1/2 ≤ r → r ≤ 2 → temporal_band r = 1) ∧
      (¬(1/2 ≤ r ∧ r ≤ 2) → r ≤ 3 → temporal_band r = 7/10) ∧
      (3 < r → temporal_band r = 1/2) ∧
      temporal_band r ≠ 3/10) := by
  refine ⟨?_, ?_, ?_, ?_, ?_⟩
  · intro events h
    simp [calculate_temporal_consistency, if_pos h]
  · intro events h
    rcases events with _ | ⟨a, t⟩
    · simp at h
    rcases t with _ | ⟨b, t2⟩
    · simp only [List.length_cons, List.length_nil] at h
      omega
    simp only [calculate_temporal_consistency]
    rw [if_neg (by simp only [List.length_cons]; omega)]
    rw [if_neg (by simp [adjacentPairs, List.zip])]
  · intro e1 e2 h
    simp only [pair_time_score]
    rw [if_neg h]
  · intro l1 l2 h1 h2
    simp [get_expected_travel_time, h1, h2]
  · intro r
    refine ⟨?_, ?_, ?_, ?_⟩
    · intro ha hb
      unfold temporal_band
      rw [if_pos ⟨ha, hb⟩]
    · intro hn h3
      unfold temporal_band
      rw [if_neg hn, if_pos h3]
    · intro h3
      unfold temporal_band
      rw [if_neg ?hc1, if_neg ?hc2, if_neg ?hc3]
      case hc1 => rintro ⟨_, hb⟩; linarith
      case hc2 => linarith
      case hc3 => linarith
    · unfold temporal_band
      split_ifs with a b c
      · norm_num
      · norm_num
      · exfalso
        exact b (le_of_lt (lt_trans c (by norm_num)))
      · norm_num

/-- Witness for the amended C6: the ratio 1/12 (far below 0.3) falls in the
`≤ 3` band and scores 0.7, and an unknown route defaults to 24 h. -/
theorem claim6_witness :
    temporal_band (1/12) = 7/10 ∧ get_expected_travel_time "Surat" "Pune" = 24 :=
  ⟨(claim6_temporal_consistency.2.2.2.2 (1/12)).2.1 (by norm_num) (by norm_num),
   claim6_temporal_consistency.2.2.2.1 "Surat" "Pune" rfl rfl⟩

/-! ### Claim C7 -/

/-- Claim C7 (against the spec-modelled classifier, the trained forest not
being part of the source tree): the counterfeit probability is monotone —
raising the anomaly-polarity feature (speed-anomaly severity) never lowers
it, and raising any of the nine consistency-polarity features never raises
it; in particular a vector with severity 1 scores at least the otherwise
identical vector with severity 0. -/
theorem claim7_monotone (v w : FeatureVector)
    (h1 : v.scan_frequency_score ≤ w.scan_frequency_score)
    (h2 : v.unique_locations ≤ w.unique_locations)
    (h3 : v.supply_chain_completeness ≤ w.supply_chain_completeness)
    (h4 : v.license_validity_score ≤ w.license_validity_score)
    (h5 : v.price_deviation_score ≤ w.price_deviation_score)
    (h6 : v.temporal_consistency_score ≤ w.temporal_consistency_score)
    (h7 : v.geofence_compliance_score ≤ w.geofence_compliance_score)
    (h8 : w.speed_anomaly_severity ≤ v.speed_anomaly_severity)
    (h9 : v.batch_health_score ≤ w.batch_health_score)
    (h10 : v.historical_pattern_score ≤ w.historical_pattern_score) :
    counterfeit_probability w ≤ counterfeit_probability v := by
  unfold counterfeit_probability
  rw [div_le_div_iff₀ (by norm_num) (by norm_num)]
  linarith

/-- Witness for C7: maximal speed-anomaly severity against the otherwise
identical calm vector. -/
theorem claim7_witness :
    counterfeit_probability wVecCalm ≤ counterfeit_probability vVecAnomalous :=
  claim7_monotone vVecAnomalous wVecCalm le_rfl le_rfl le_rfl le_rfl le_rfl le_rfl
    le_rfl (by norm_num [vVecAnomalous, wVecCalm]) le_rfl le_rfl

/-! ### Claim C8 -/

/-- Claim C8: a verification request whose identifier resolves to no drug
record returns the definitive status `fake` (no fault) and appends exactly
one `INVALID_ID` failed-attempt row for the scanned identifier. -/
theorem claim8_invalid_id (dist : Event → Event → ℚ) (unique_id : String)
    (supply_chain : List Event) (scan_count : ℕ) (ml : Option MLPrediction) :
    verify_drug dist unique_id none supply_chain scan_count ml =
      { status := "fake"
        logged := [⟨unique_id, "INVALID_ID",
          "Drug not found in database - Possible counterfeit"⟩] } := rfl

/-! ### Claim C9 -/

/-- Claim C9: a unit whose cloning-anomaly list is non-empty but all-MEDIUM
`UNUSUAL_SPEED` (no CRITICAL transition), with the scan-frequency guard
silent, still gets `risk_level` CRITICAL and `overall_status` SUSPICIOUS,
and the verify endpoint (ML stage inactive, as in the shipped tree) then
logs one `ANOMALY_DETECTED` failed attempt and returns `suspicious`. -/
theorem claim9_medium_only_critical (dist : Event → Event → ℚ) (uid : String)
    (d : DrugData) (events : List Event) (n : ℕ)
    (hne : detect_cloning_attempt dist events ≠ [])
    (hmed : ∀ a ∈ detect_cloning_attempt dist events,
      a.severity = Severity.MEDIUM ∧ a.type = AnomalyType.UNUSUAL_SPEED)
    (halert : check_scan_frequency n = none)
    (hlen : 2 ≤ events.length) :
    (analyze_drug_safety dist events n).risk_level = "CRITICAL" ∧
    (analyze_drug_safety dist events n).overall_status = "SUSPICIOUS" ∧
    verify_drug dist uid (some d) events n none =
      { status := "suspicious"
        logged := [⟨uid, "ANOMALY_DETECTED", "Impossible travel speed detected"⟩] } := by
  have hcrit : (analyze_drug_safety dist events n).risk_level = "CRITICAL" := by
    simp only [analyze_drug_safety]
    rw [if_neg fun hand => hne hand.1, if_pos hne]
  have hst : (analyze_drug_safety dist events n).overall_status = "SUSPICIOUS" := by
    simp only [analyze_drug_safety]
    rw [if_neg fun hand => hne hand.1]
  refine ⟨hcrit, hst, ?_⟩
  simp only [verify_drug]
  rw [if_neg (by simp), if_pos hlen, if_pos hcrit]

/-- Witness for C9 at the MEDIUM-only Mumbai-to-Surat series. -/
theorem claim9_witness :
    (analyze_drug_safety dist300 mediumOnlyEvents 0).risk_level = "CRITICAL" ∧
    (analyze_drug_safety dist300 mediumOnlyEvents 0).overall_status = "SUSPICIOUS" ∧
    verify_drug dist300 "SEED1234-1" (some demoDrug) mediumOnlyEvents 0 none =
      { status := "suspicious"
        logged := [⟨"SEED1234-1", "ANOMALY_DETECTED",
          "Impossible travel speed detected"⟩] } :=
  claim9_medium_only_critical dist300 "SEED1234-1" demoDrug mediumOnlyEvents 0
    (by rw [detect_mediumOnly_eval]; simp)
    (by rw [detect_mediumOnly_eval]
        intro a ha
        simp only [List.mem_singleton] at ha
        subst ha
        exact ⟨rfl, rfl⟩)
    rfl
    (by norm_num [mediumOnlyEvents])

/-! ### Claim C10 -/

/-- Folding the speed maximum over pairs that all fail the GPS truthiness
test leaves the accumulator unchanged. -/
lemma foldl_no_gps (dist : Event → Event → ℚ) (pairs : List (Event × Event)) (m : ℚ)
    (h : ∀ p ∈ pairs, pair_has_gps p.1 p.2 = false) :
    pairs.foldl (fun m p =>
      if pair_has_gps p.1 p.2 then max m (calculate_speed_between_events dist p.1 p.2)
      else m) m = m := by
  induction pairs generalizing m with
  | nil => rfl
  | cons p ps ih =>
    have hp := h p (List.mem_cons_self p ps)
    rw [List.foldl_cons, if_neg (by rw [hp]; exact Bool.false_ne_true)]
    exact ih m fun q hq => h q (List.mem_cons_of_mem p hq)

/-- Claim C10: in the speed-anomaly-severity feature, a coordinate equal to
0.0 is treated exactly like a missing coordinate (Python truthiness); any
pair involving such a checkpoint is excluded from the maximum-speed
computation, and a series in which every adjacent pair involves a zero or
missing coordinate scores severity 0 regardless of the distances. -/
theorem claim10_zero_coordinate :
    (truthyCoord (some 0) = false ∧ truthyCoord none = false) ∧
    (∀ e1 e2 : Event,
      (e1.latitude = some 0 ∨ e1.longitude = some 0 ∨
        e2.latitude = some 0 ∨ e2.longitude = some 0) →
      pair_has_gps e1 e2 = false) ∧
    (∀ (dist : Event → Event → ℚ) (events : List Event),
      (∀ p ∈ adjacentPairs events, pair_has_gps p.1 p.2 = false) →
      calculate_speed_severity dist events = 0) := by
  refine ⟨⟨by simp [truthyCoord], rfl⟩, ?_, ?_⟩
  · intro e1 e2 h
    rcases h with h | h | h | h <;> simp [pair_has_gps, truthyCoord, h]
  · intro dist events h
    by_cases hl : events.length < 2
    · simp [calculate_speed_severity, if_pos hl]
    · simp only [calculate_speed_severity, if_neg hl]
      rw [foldl_no_gps dist (adjacentPairs events) 0 h]
      norm_num

/-- Witness for C10: two checkpoints 1113 km apart one minute apart, both
with latitude 0, score severity 0. -/
theorem claim10_witness :
    calculate_speed_severity dist1113 [zeroLatA, zeroLatB] = 0 :=
  claim10_zero_coordinate.2.2 dist1113 [zeroLatA, zeroLatB] (by
    intro p hp
    simp only [adjacentPairs, List.zip] at hp
    simp at hp
    subst hp
    simp [pair_has_gps, truthyCoord, zeroLatA])

end MediTrace
